import Mathlib

set_option maxRecDepth 100000

/-!
Verification of the session-scoped command-interpretation pipeline of the
voice-intent repository (Java/Spring backend under `com.voiceapp`, Node
backend under `backend/src/server.js`).

Each definition below is a shallow embedding of one source function,
named after it.  External collaborators (the Ollama completion service,
the JSON (de)serializer, the WebSocket transport) are either parametrized
or modelled by small faithful subsets, as noted at each definition.
Java `null` for a collection-valued field is collapsed to the empty
collection wherever the source itself treats the two identically.
-/

namespace VoiceApp

/-- Java `Character` code of a char (UTF-16 unit for the BMP inputs we
consider; Lean chars are codepoints, which agrees on all inputs used here). -/
def charCode (c : Char) : Nat := c.toNat

/-- Java `String.trim()` removes characters with code ≤ U+0020 from both ends. -/
def isJavaTrimmable (c : Char) : Bool := charCode c ≤ 32

/-- Leading-edge part of Java `String.trim()`. -/
def javaTrimLeft (l : List Char) : List Char := l.dropWhile isJavaTrimmable

/-- Java `String.trim()` on a list of chars: drop trimmable chars from both ends. -/
def javaTrimList (l : List Char) : List Char :=
  ((javaTrimLeft l).reverse.dropWhile isJavaTrimmable).reverse

/-- Java `String.trim()`. -/
def javaTrim (s : String) : String := ⟨javaTrimList s.data⟩

/-- Java regex `\p{Cntrl}` is `[\x00-\x1F\x7F]`; the source strips these
except newline, carriage return and tab
(`ValidationService.sanitizeText`, regex `[\p{Cntrl}&&[^\n\r\t]]`). -/
def isStrippedCntrl (c : Char) : Bool :=
  (charCode c < 32 || charCode c == 127) &&
    !(c == '\n') && !(c == '\r') && !(c == '\t')

/-- `ValidationService.MAX_TEXT_LENGTH`. -/
def MAX_TEXT_LENGTH : Nat := 1000

/-- `ValidationService.MAX_PARAM_LENGTH`. -/
def MAX_PARAM_LENGTH : Nat := 500

/-- `ValidationService.sanitizeText`: null maps to `""` (modelled by total
`String`), then `replaceAll("[\p{Cntrl}&&[^\n\r\t]]", "")`, then `trim()`,
then truncate with `substring(0, 1000)` when longer than 1000. -/
def sanitizeText (s : String) : String :=
  let stripped := s.data.filter (fun c => !(isStrippedCntrl c))
  let trimmed := javaTrimList stripped
  ⟨trimmed.take MAX_TEXT_LENGTH⟩

/-- Association-list lookup standing in for `Map.get` / `Map.containsKey`
on the string-keyed Java maps of the source. -/
def lookupKey (m : List (String × String)) (k : String) : Option String :=
  (m.find? (fun p => p.1 == k)).map Prod.snd

/-- Java `Map.containsKey`. -/
def containsKey (m : List (String × String)) (k : String) : Bool :=
  (m.find? (fun p => p.1 == k)).isSome

/-- One entry of `ConversationContext.turns`
(`ConversationContext.ConversationTurn`); `Instant` timestamps are
modelled as `Nat` milliseconds. -/
structure ConversationTurn where
  userText : String
  intent : String
  action : String
  timestamp : Nat
deriving Repr, DecidableEq

/-- `com.voiceapp.model.ConversationContext`.  The Java `turns` list may be
`null` before the first `addTurn`; the source treats `null` exactly as the
empty list (`addTurn` allocates, `getContextString` returns `""`), so the
embedding collapses `null` to `[]`. -/
structure ConversationContext where
  sessionId : String
  turns : List ConversationTurn
  createdAt : Nat
  lastAccessedAt : Nat
deriving Repr, DecidableEq

namespace ConversationContext

/-- `ConversationContext.addTurn`: append the new turn, then
`if (turns.size() > 5) turns.remove(0)`, then `lastAccessedAt = now`. -/
def addTurn (ctx : ConversationContext) (userText intent action : String)
    (now : Nat) : ConversationContext :=
  let turn : ConversationTurn := ⟨userText, intent, action, now⟩
  let ts := ctx.turns ++ [turn]
  let ts := if ts.length > 5 then ts.drop 1 else ts
  { ctx with turns := ts, lastAccessedAt := now }

/-- `ConversationContext.getContextString`: renders the turns for the prompt;
empty string when there are no turns. -/
def getContextString (ctx : ConversationContext) : String :=
  if ctx.turns.isEmpty then ""
  else
    "\n\nRecent conversation history:\n" ++
      String.join (ctx.turns.map (fun t =>
        "User: " ++ t.userText ++ " → Intent: " ++ t.intent ++
          " → Action: " ++ t.action ++ "\n"))

end ConversationContext

/-- `ContextService.CONTEXT_TIMEOUT = Duration.ofMinutes(30)`, in ms. -/
def CONTEXT_TIMEOUT : Nat := 30 * 60 * 1000

/-- The `ContextService.contexts` map (a `ConcurrentHashMap`), modelled as an
association list with unique keys. -/
abbrev ContextMap : Type := List (String × ConversationContext)

/-- A context is expired when `Duration.between(lastAccessedAt, now)` exceeds
the 30-minute timeout; a negative duration (clock before last access) compares
below the timeout, which truncated `Nat` subtraction reproduces. -/
def isExpired (now : Nat) (ctx : ConversationContext) : Bool :=
  now - ctx.lastAccessedAt > CONTEXT_TIMEOUT

/-- `ContextService.cleanupExpiredContexts`: `removeIf` over the map. -/
def cleanupExpiredContexts (now : Nat) (m : ContextMap) : ContextMap :=
  m.filter (fun e => !(isExpired now e.2))

/-- The context `ContextService.getContext` builds for an absent session id:
`builder().sessionId(id).createdAt(now).lastAccessedAt(now).build()`
(turns start out `null`, i.e. empty). -/
def freshContext (sessionId : String) (now : Nat) : ConversationContext :=
  ⟨sessionId, [], now, now⟩

/-- `ContextService.getContext`: sweep expired entries, then
`computeIfAbsent` a fresh context.  Returns the context handed to the caller
together with the updated map. -/
def getContext (m : ContextMap) (now : Nat) (sessionId : String) :
    ConversationContext × ContextMap :=
  let m' := cleanupExpiredContexts now m
  match (m'.find? (fun e => e.1 == sessionId)).map Prod.snd with
  | some ctx => (ctx, m')
  | none => (freshContext sessionId now, m' ++ [(sessionId, freshContext sessionId now)])

/-- `ContextService.updateContext`: `getContext` then `addTurn`. -/
def updateContext (m : ContextMap) (now : Nat) (sessionId userText intent action : String) :
    ContextMap :=
  let (ctx, m') := getContext m now sessionId
  m'.map (fun e =>
    if e.1 == sessionId then (e.1, ctx.addTurn userText intent action now) else e)

/-- `com.voiceapp.model.ToolCall` as the Interpreter hands it onward.
Jackson leaves `params` as Java `null` when the JSON has no `params`
member; every consumer in the source (`ToolExecutor`, `ValidationService`)
treats `null` and the empty map identically, so the embedding collapses
`null` to `[]` here and keeps the raw `Option` form in `RawToolCall`. -/
structure ToolCall where
  tool : String
  params : List (String × String)
deriving Repr, DecidableEq

/-- A `ToolCall` as Jackson materializes it: both members may be absent. -/
structure RawToolCall where
  tool : Option String
  params : Option (List (String × String))
deriving Repr, DecidableEq

/-- JSON whitespace. -/
def jsonWs (c : Char) : Bool := ([' ', '\t', '\n', '\r'] : List Char).contains c

/-- Skip JSON whitespace. -/
def skipWs (l : List Char) : List Char := l.dropWhile jsonWs

/-- JSON string escape table (the subset that can occur in the strings
this development evaluates): each escape letter with the character it
denotes. -/
def escPairs : List (Char × Char) :=
  [('"', '"'), ('\\', '\\'), ('/', '/'), ('n', '\n'), ('t', '\t'), ('r', '\r')]

/-- Resolve one JSON string escape via the table. -/
def escChar (c : Char) : Option Char :=
  (escPairs.find? (fun p => p.1 == c)).map Prod.snd

/-- Body of a JSON string literal, after the opening quote. -/
def readStringBody : List Char → List Char → Option (String × List Char)
  | [], _ => none
  | '"' :: rest, acc => some (⟨acc.reverse⟩, rest)
  | '\\' :: c :: rest, acc =>
    match escChar c with
    | some e => readStringBody rest (e :: acc)
    | none => none
  | c :: rest, acc => readStringBody rest (c :: acc)

/-- A JSON string literal. -/
def readStringLit : List Char → Option (String × List Char)
  | '"' :: rest => readStringBody rest []
  | _ => none

/-- Characters a non-string JSON scalar (number, `true`, `false`, `null`)
is made of. -/
def isScalarChar (c : Char) : Bool :=
  c.isDigit || c == '-' || c == '+' || c == '.' || c.isAlpha

/-- Skip over a non-string JSON scalar. -/
def skipScalar (l : List Char) : Option (List Char) :=
  let tk := l.takeWhile isScalarChar
  if tk.isEmpty then none else some (l.drop tk.length)

/-- Members of a flat string-valued JSON object (the `params` map), after
the opening brace.  Fuel bounds the recursion by the input length. -/
def readParamsMembers :
    Nat → List Char → List (String × String) →
      Option (List (String × String) × List Char)
  | 0, _, _ => none
  | _ + 1, '}' :: rest, acc => some (acc.reverse, rest)
  | fuel + 1, l, acc =>
    match readStringLit l with
    | none => none
    | some (k, r1) =>
      match skipWs r1 with
      | ':' :: r2 =>
        match readStringLit (skipWs r2) with
        | none => none
        | some (v, r3) =>
          match skipWs r3 with
          | ',' :: r4 => readParamsMembers fuel (skipWs r4) ((k, v) :: acc)
          | '}' :: r4 => some (((k, v) :: acc).reverse, r4)
          | _ => none
      | _ => none

/-- A flat string-valued JSON object. -/
def readParamsObj (fuel : Nat) (l : List Char) :
    Option (List (String × String) × List Char) :=
  match skipWs l with
  | '{' :: rest => readParamsMembers fuel (skipWs rest) []
  | _ => none

/-- Members of the top-level `{tool, params}` object, after the opening
brace.  `tool` must be a string, `params` a flat string-valued object;
other members are skipped (Spring Boot's `ObjectMapper` does not fail on
unknown properties). -/
def readTopMembers : Nat → List Char → RawToolCall → Option RawToolCall
  | 0, _, _ => none
  | _ + 1, '}' :: _, acc => some acc
  | fuel + 1, l, acc =>
    match readStringLit l with
    | none => none
    | some (k, r1) =>
      match skipWs r1 with
      | ':' :: r2 =>
        let r2 := skipWs r2
        let step : Option (RawToolCall × List Char) :=
          match r2 with
          | '"' :: _ =>
            match readStringLit r2 with
            | none => none
            | some (v, r3) =>
              some (if k == "tool" then { acc with tool := some v } else acc, r3)
          | '{' :: _ =>
            match readParamsObj fuel r2 with
            | none => none
            | some (ps, r3) =>
              some (if k == "params" then { acc with params := some ps } else acc, r3)
          | _ =>
            match skipScalar r2 with
            | none => none
            | some r3 => some (acc, r3)
        match step with
        | none => none
        | some (acc', r3) =>
          match skipWs r3 with
          | ',' :: r4 => readTopMembers fuel (skipWs r4) acc'
          | '}' :: _ => some acc'
          | _ => none
      | _ => none

/-- Model of `objectMapper.readValue(cleaned, ToolCall.class)`: Jackson's
deserialization of a `{tool, params}` object, restricted to the flat
string-valued shape this pipeline exchanges.  `none` is the
`JsonProcessingException` outcome; trailing content after the object is
tolerated (`FAIL_ON_TRAILING_TOKENS` is off by default). -/
def readToolCall (s : String) : Option RawToolCall :=
  match skipWs s.data with
  | '{' :: rest => readTopMembers (s.data.length + 1) (skipWs rest) ⟨none, none⟩
  | _ => none

/-- `l` starts with `p` (kernel-reducible counterpart of `String.startsWith`). -/
def listStartsWith : List Char → List Char → Bool
  | _, [] => true
  | [], _ :: _ => false
  | c :: cs, p :: ps => c == p && listStartsWith cs ps

/-- `l` ends with `p` (kernel-reducible counterpart of `String.endsWith`). -/
def listEndsWith (l p : List Char) : Bool := listStartsWith l.reverse p.reverse

/-- Java `toLowerCase()` (ASCII range, which is all the source compares). -/
def toLowerStr (s : String) : String := ⟨s.data.map Char.toLower⟩

/-- The cleaning step of `IntentService.parseToolCall`: trim, strip a
leading ```` ```json ```` or ```` ``` ```` fence, strip a trailing
```` ``` ```` fence, trim again. -/
def cleanResponse (response : String) : String :=
  let cleaned := javaTrimList response.data
  let cleaned := if listStartsWith cleaned "```json".data then cleaned.drop 7 else cleaned
  let cleaned := if listStartsWith cleaned "```".data then cleaned.drop 3 else cleaned
  let cleaned := if listEndsWith cleaned "```".data then cleaned.take (cleaned.length - 3) else cleaned
  ⟨javaTrimList cleaned⟩

/-- The deterministic fallback `new ToolCall("unknown", null)`. -/
def unknownToolCall : ToolCall := ⟨"unknown", []⟩

/-- `IntentService.parseToolCall`, parametrized by the deserializer: clean
the response, deserialize; any failure, or a missing/empty `tool`, falls
back to `unknown`. -/
def parseToolCallWith (readValue : String → Option RawToolCall)
    (response : String) : ToolCall :=
  let cleaned := cleanResponse response
  match readValue cleaned with
  | none => unknownToolCall
  | some raw =>
    match raw.tool with
    | none => unknownToolCall
    | some t => if t == "" then unknownToolCall else ⟨t, raw.params.getD []⟩

/-- `IntentService.parseToolCall` with the concrete deserializer model. -/
def parseToolCall (response : String) : ToolCall :=
  parseToolCallWith readToolCall response

/-- `ValidationService.VALID_TOOLS`. -/
def VALID_TOOLS : List String :=
  ["navigate", "save_form", "trigger_email", "submit_form", "unknown"]

/-- `ValidationService.validateNavigateParams`. -/
def validateNavigateParams (params : List (String × String)) : Bool :=
  match lookupKey params "page" with
  | none => false
  | some page => !(page == "") && page.length ≤ MAX_PARAM_LENGTH

/-- `ValidationService.validateSaveFormParams`. -/
def validateSaveFormParams (params : List (String × String)) : Bool :=
  match lookupKey params "field", lookupKey params "value" with
  | some field, some value =>
    !(field == "") && field.length ≤ MAX_PARAM_LENGTH &&
      !(value == "") && value.length ≤ MAX_PARAM_LENGTH
  | _, _ => false

/-- `ValidationService.validateTriggerEmailParams`. -/
def validateTriggerEmailParams (params : List (String × String)) : Bool :=
  (match lookupKey params "subject" with
   | some subject => subject.length ≤ MAX_PARAM_LENGTH
   | none => true) &&
  (match lookupKey params "body" with
   | some body => body.length ≤ MAX_TEXT_LENGTH
   | none => true)

/-- `ValidationService.validateToolParameters`. -/
def validateToolParameters (toolCall : ToolCall) : Bool :=
  let tool := toLowerStr toolCall.tool
  if tool == "navigate" then validateNavigateParams toolCall.params
  else if tool == "save_form" then validateSaveFormParams toolCall.params
  else if tool == "trigger_email" then validateTriggerEmailParams toolCall.params
  else true

/-- `ValidationService.isValidToolCall`: an empty tool name fails; a tool
name outside `VALID_TOOLS` is reported valid ("handle unknown tools
gracefully"); known tools get their parameters checked. -/
def isValidToolCall (toolCall : ToolCall) : Bool :=
  if toolCall.tool == "" then false
  else if !(VALID_TOOLS.contains (toLowerStr toolCall.tool)) then true
  else validateToolParameters toolCall

/-- Outcome of the `WebClient` round trip inside `OllamaClient.generate`:
either the service answered with a body, or the call failed at transport
level / timed out (`.timeout(timeout)` and every other error reach the
same `onErrorResume`). -/
inductive GenOutcome where
  | ok (response : String)
  | failure
deriving Repr, DecidableEq

/-- The literal `OllamaClient.generate` resolves to on any error:
`{"tool":"error","params":{"message":"LLM unavailable"}}`. -/
def ollamaFallback : String :=
  "\x7b\"tool\":\"error\",\"params\":\x7b\"message\":\"LLM unavailable\"\x7d\x7d"

/-- `OllamaClient.generate`: the happy path yields the service's response
body; `onErrorResume` turns timeout and transport failure into the fixed
fallback string, never a failed `Mono`. -/
def generate (g : GenOutcome) (_prompt : String) : String :=
  match g with
  | .ok r => r
  | .failure => ollamaFallback

/-- `IntentService.SYSTEM_PROMPT` (verbatim; braces written `\x7b`/`\x7d`). -/
def SYSTEM_PROMPT : String :=
  "You are a voice command interpreter. Your job is to analyze spoken text and convert it into structured tool calls.\n" ++
  "\nAvailable tools:\n" ++
  "\n1. navigate:\n   description: Navigate to a different page in the application\n" ++
  "   parameters: \x7b \"page\": \"string\" \x7d\n" ++
  "   examples: \"open settings\", \"go to login\", \"show dashboard\"\n" ++
  "\n2. save_form:\n   description: Save a form field value\n" ++
  "   parameters: \x7b \"field\": \"string\", \"value\": \"string\" \x7d\n" ++
  "   examples: \"save email john@example.com\", \"set username to alice\", \"my name is Bob\"\n" ++
  "\n3. trigger_email:\n   description: Send a notification email\n" ++
  "   parameters: \x7b \"subject\": \"string\", \"body\": \"string\" \x7d\n" ++
  "   examples: \"send email to HR\", \"email support about login issue\"\n" ++
  "\n4. submit_form:\n   description: Submit the current form\n" ++
  "   parameters: \x7b\x7d\n" ++
  "   examples: \"submit the form\", \"send it\", \"submit\"\n" ++
  "\n5. unknown:\n   description: Use when the intent is unclear\n" ++
  "   parameters: \x7b \"text\": \"original text\" \x7d\n" ++
  "\nCRITICAL RULES:\n- Your response MUST be valid JSON\n" ++
  "- Your response MUST match this exact structure:\n" ++
  "  \x7b\n    \"tool\": \"tool_name\",\n    \"params\": \x7b \"key\": \"value\" \x7d\n  \x7d\n" ++
  "- Do NOT include any explanations, markdown, or extra text\n" ++
  "- Choose the MOST appropriate tool based on the user\x27s intent\n" ++
  "- If uncertain, use the \"unknown\" tool\n" ++
  "\nExamples:\n" ++
  "\nInput: \"open settings page\"\nOutput: \x7b\"tool\":\"navigate\",\"params\":\x7b\"page\":\"settings\"\x7d\x7d\n" ++
  "\nInput: \"save email john@example.com\"\nOutput: \x7b\"tool\":\"save_form\",\"params\":\x7b\"field\":\"email\",\"value\":\"john@example.com\"\x7d\x7d\n" ++
  "\nInput: \"send email to HR about vacation\"\nOutput: \x7b\"tool\":\"trigger_email\",\"params\":\x7b\"subject\":\"Vacation request\",\"body\":\"Request for vacation time\"\x7d\x7d\n" ++
  "\nInput: \"submit the form\"\nOutput: \x7b\"tool\":\"submit_form\",\"params\":\x7b\x7d\x7d\n" ++
  "\nNow interpret this command:\n"

/-- The prompt `IntentService.interpret` assembles. -/
def promptOf (contextStr sanitized : String) : String :=
  SYSTEM_PROMPT ++ contextStr ++ "\n\nUser command: \"" ++ sanitized ++
    "\"\n\nYour JSON response:"

/-- `IntentService.interpret(text, sessionId)`.  The Ollama round trip is
the `GenOutcome` parameter; the context map and clock stand for the
`ContextService` state at the moment of the call.  Every path yields a
`ToolCall` value: no branch propagates a failure. -/
def interpret (g : GenOutcome) (m : ContextMap) (now : Nat) (text : String)
    (sessionId : Option String) : ToolCall :=
  if javaTrim text == "" then unknownToolCall
  else
    let sanitized := sanitizeText text
    if sanitized == "" then unknownToolCall
    else
      let contextStr :=
        match sessionId with
        | some sid =>
          if sid == "" then "" else ((getContext m now sid).1).getContextString
        | none => ""
      let toolCall := parseToolCall (generate g (promptOf contextStr sanitized))
      if !(isValidToolCall toolCall) then unknownToolCall else toolCall

/-- `com.voiceapp.model.ActionResult`.  Absent (Java `null`) optional
fields are `none`; `metadata` distinguishes `null` from an allocated map
because `IntentWebSocketHandler` serializes them differently. -/
structure ActionResult where
  action : String
  target : Option String
  field : Option String
  value : Option String
  taskId : Option String
  metadata : Option (List (String × String))
  success : Bool
  error : Option String
deriving Repr, DecidableEq

/-- `ToolExecutor.createErrorAction`. -/
def createErrorAction (errorMessage : String) : ActionResult :=
  ⟨"ERROR", none, none, none, none, none, false, some errorMessage⟩

/-- `ToolExecutor.executeNavigate`. -/
def executeNavigate (toolCall : ToolCall) : ActionResult :=
  match lookupKey toolCall.params "page" with
  | none => createErrorAction "Missing \x27page\x27 parameter for navigate"
  | some page => ⟨"NAVIGATE", some page, none, none, none, none, true, none⟩

/-- `ToolExecutor.executeSaveForm`. -/
def executeSaveForm (toolCall : ToolCall) : ActionResult :=
  match lookupKey toolCall.params "field", lookupKey toolCall.params "value" with
  | some field, some value =>
    ⟨"SAVE_FORM_FIELD", none, some field, some value, none, none, true, none⟩
  | _, _ =>
    createErrorAction "Missing \x27field\x27 or \x27value\x27 parameter for save_form"

/-- `ToolExecutor.executeTriggerEmail`; `System.currentTimeMillis()` is the
`now` parameter. -/
def executeTriggerEmail (toolCall : ToolCall) (now : Nat) : ActionResult :=
  let subject := (lookupKey toolCall.params "subject").getD "Email notification"
  let body := (lookupKey toolCall.params "body").getD ""
  ⟨"BACKEND_TASK", none, none, none, some ("email_" ++ toString now),
    some [("subject", subject), ("body", body), ("status", "queued")], true, none⟩

/-- `ToolExecutor.executeSubmitForm`. -/
def executeSubmitForm (_toolCall : ToolCall) : ActionResult :=
  ⟨"SUBMIT_FORM", none, none, none, none, none, true, none⟩

/-- `ToolExecutor.executeUnknown`: the diagnostic failure, echoing the
original text when the `params` carry it. -/
def executeUnknown (toolCall : ToolCall) : ActionResult :=
  let metadata :=
    match lookupKey toolCall.params "text" with
    | some t => [("original_text", t)]
    | none => []
  ⟨"UNKNOWN", none, none, none, none, some metadata, false,
    some "Could not interpret the command"⟩

/-- `ToolExecutor.execute`: fixed dispatch on the lower-cased tool name;
names outside the table hit the `default` arm.  (The Java `null`
tool-call guard is unreachable from `interpret`, whose result always
carries a tool name.) -/
def execute (toolCall : ToolCall) (now : Nat) : ActionResult :=
  let tool := toLowerStr toolCall.tool
  if tool == "navigate" then executeNavigate toolCall
  else if tool == "save_form" then executeSaveForm toolCall
  else if tool == "trigger_email" then executeTriggerEmail toolCall now
  else if tool == "submit_form" then executeSubmitForm toolCall
  else if tool == "unknown" then executeUnknown toolCall
  else createErrorAction ("Unknown tool: " ++ toolCall.tool)

/-- JSON values as the handler's `Map<String, Object>` payloads hold them
(`1.0` is the only non-integer number and is modelled as `num 1`). -/
inductive JVal where
  | str : String → JVal
  | num : Nat → JVal
  | bool : Bool → JVal
  | null : JVal
  | obj : List (String × JVal) → JVal
deriving Repr

/-- Member lookup on a JSON object value. -/
def JVal.lookup : JVal → String → Option JVal
  | .obj fields, k => (fields.find? (fun p => p.1 == k)).map Prod.snd
  | _, _ => none

/-- The payload of a JSON string value. -/
def JVal.asStr : JVal → Option String
  | .str s => some s
  | _ => none

/-- The payload of a JSON boolean value. -/
def JVal.asBool : JVal → Option Bool
  | .bool b => some b
  | _ => none

/-- Java `toUpperCase()` (ASCII range). -/
def toUpperStr (s : String) : String := ⟨s.data.map Char.toUpper⟩

/-- The `responseData` map that
`IntentWebSocketHandler.createActionResultResponse` assembles (and logs):
the canonical envelope — an `intent` object with the upper-cased tool
name, the params and `confidence: 1.0`, and a `result` object holding
only the non-null `ActionResult` fields. -/
def responseDataOf (toolCall : ToolCall) (actionResult : ActionResult)
    (totalTime : Nat) (timestamp : String) : JVal :=
  let intent : List (String × JVal) :=
    [("intent", .str (toUpperStr toolCall.tool)),
     ("params", .obj (toolCall.params.map (fun p => (p.1, JVal.str p.2)))),
     ("confidence", .num 1)]
  let result : List (String × JVal) :=
    [("action", .str actionResult.action), ("success", .bool actionResult.success)] ++
    (match actionResult.target with | some t => [("target", JVal.str t)] | none => []) ++
    (match actionResult.field with | some f => [("field", JVal.str f)] | none => []) ++
    (match actionResult.value with | some v => [("value", JVal.str v)] | none => []) ++
    (match actionResult.taskId with | some t => [("taskId", JVal.str t)] | none => []) ++
    (match actionResult.metadata with
     | some m => [("metadata", JVal.obj (m.map (fun p => (p.1, JVal.str p.2))))]
     | none => []) ++
    (match actionResult.error with | some e => [("error", JVal.str e)] | none => [])
  .obj [("type", .str "action_result"), ("intent", .obj intent),
        ("result", .obj result), ("processingTime", .num totalTime),
        ("timestamp", .str timestamp)]

/-- `IntentWebSocketHandler.createActionResultResponse` as the source
ships it: it computes `responseData` only to log it, then builds and
returns the `myResponseData` debug mock (the `TODO: return mock
responseData` block), whose payload is independent of the tool call and
the action result. -/
def createActionResultResponse (_toolCall : ToolCall) (_actionResult : ActionResult)
    (_interpretTime _totalTime : Nat) (timestamp : String) : JVal :=
  .obj [("type", .str "action_result"),
        ("result", .obj [("success", .bool true),
                         ("message", .str "This is a TEST message")]),
        ("intent", .obj [("confidence", .num 1)]),
        ("timestamp", .str timestamp)]

/-- One outbound message of the Java gateway (the JSON envelope it
serializes). -/
inductive Envelope where
  | system (message : String)
  | partialEnv (message : String)
  | pong
  | errorEnv (message : String)
  | actionResult (payload : JVal)
deriving Repr

/-- `com.voiceapp.model.IntentRequest`: all three members may be absent in
the inbound JSON. -/
structure IntentRequest where
  type : Option String
  text : Option String
  isPartial : Option Bool
deriving Repr, DecidableEq

/-- `IntentWebSocketHandler.handleSTT`: empty or missing text is a
protocol error; a partial result short-circuits to an echo; a final
command runs interpret → execute → context update → response assembly and
yields exactly one envelope.  `g` is the Ollama outcome for this command,
`m`/`now` the `ContextService` state, `timestamp` the emission time. -/
def handleSTT (g : GenOutcome) (m : ContextMap) (now : Nat) (sessionId : String)
    (timestamp : String) (request : IntentRequest) : Envelope :=
  match request.text with
  | none => .errorEnv "Empty STT text"
  | some text =>
    if javaTrim text == "" then .errorEnv "Empty STT text"
    else if request.isPartial == some true then .partialEnv text
    else
      let toolCall := interpret g m now text (some sessionId)
      let actionResult := execute toolCall now
      .actionResult (createActionResultResponse toolCall actionResult 0 0 timestamp)

/-- `IntentWebSocketHandler.handleMessage`: `none` is the unparseable
payload (`readValue` threw); a parsed request dispatches on
`getType() != null ? getType() : "stt"` — a typeless message takes the
`"stt"` arm. -/
def handleMessage (g : GenOutcome) (m : ContextMap) (now : Nat) (sessionId : String)
    (timestamp : String) (request : Option IntentRequest) : Envelope :=
  match request with
  | none => .errorEnv "Invalid message format"
  | some req =>
    let t := req.type.getD "stt"
    if t == "ping" then .pong
    else if t == "stt" then handleSTT g m now sessionId timestamp req
    else .errorEnv ("Unknown message type: " ++ t)

end VoiceApp

namespace NodeBackend

/-- The intent object `intentInterpreter.interpret` resolves to in
`backend/src/server.js` (only the `intent` discriminator matters to the
gateway's control flow). -/
structure NodeIntent where
  intent : String
deriving Repr, DecidableEq

/-- One outbound message of the Node gateway. -/
inductive NodeEnv where
  | errorEnv (message : String)
  | partialEnv (text : String)
  | intentEnv (i : NodeIntent)
  | actionResult (i : NodeIntent)
deriving Repr, DecidableEq

/-- Exactly-one test used in C3: whether an envelope is `action_result`. -/
def NodeEnv.isActionResult : NodeEnv → Bool
  | .actionResult _ => true
  | _ => false

/-- `handleSTT` of `backend/src/server.js`: empty text errors, partials
echo; a final command always sends the `intent` envelope, then executes
and sends `action_result` only when the intent is neither `UNKNOWN` nor
`ERROR`.  `interpretOf` is the awaited `intentInterpreter.interpret`. -/
def handleSTT (interpretOf : String → NodeIntent) (text : String)
    (isPartial : Bool) : List NodeEnv :=
  if VoiceApp.javaTrim text == "" then [.errorEnv "Empty STT text"]
  else if isPartial then [.partialEnv text]
  else
    let intent := interpretOf text
    [.intentEnv intent] ++
      (if !(intent.intent == "UNKNOWN") && !(intent.intent == "ERROR") then
        [.actionResult intent]
      else [])

/-- Number of `action_result` envelopes in an outbound sequence. -/
def countActionResults (l : List NodeEnv) : Nat :=
  (l.filter NodeEnv.isActionResult).length

end NodeBackend

namespace VoiceApp

/-- One final command in flight on a session: its text, its arrival time
on the inbound stream (strictly increasing in submission order) and the
latency of its Ollama round trip.  Its pipeline — and with it the
`contextService.updateContext` call — completes at `arrival + latency`. -/
structure FinalCmd where
  text : String
  arrival : Nat
  latency : Nat
deriving Repr, DecidableEq

/-- Completion time of a final command's interpret→execute pipeline. -/
def completion (c : FinalCmd) : Nat := c.arrival + c.latency

/-- First pending command with minimal completion time, and the remaining
pending ones in order. -/
def pickMin : FinalCmd → List FinalCmd → FinalCmd × List FinalCmd
  | c, [] => (c, [])
  | c, d :: rest =>
    if completion d < completion c then
      ((pickMin d rest).1, c :: (pickMin d rest).2)
    else
      ((pickMin c rest).1, d :: (pickMin c rest).2)

/-- Pending pipelines resolve in completion order (fuel-driven selection). -/
def runFlatMapAux : Nat → List FinalCmd → List String
  | 0, _ => []
  | _ + 1, [] => []
  | fuel + 1, c :: rest =>
    (pickMin c rest).1.text :: runFlatMapAux fuel (pickMin c rest).2

/-- Model of `session.receive() … .flatMap(text -> handleMessage(…))` in
`IntentWebSocketHandler.handle`: `flatMap` subscribes to every inner
pipeline as its message arrives and merges results as they complete, so
the per-command `updateContext` calls land in completion order, not
arrival order.  The result lists the user texts in the order their turns
reach the Context Store. -/
def runFlatMap (cmds : List FinalCmd) : List String :=
  runFlatMapAux cmds.length cmds

/-- The session's turn texts after the in-flight commands settle: each
completed pipeline appends its turn via `ConversationContext.addTurn`. -/
def turnTextsAfter (cmds : List FinalCmd) : List String :=
  ((runFlatMap cmds).foldl
    (fun ctx t => ctx.addTurn t "tool" "ACTION" 0) (freshContext "s" 0)).turns.map
    (fun t => t.userText)

end VoiceApp

namespace VoiceApp

/- ### Helper lemmas -/

theorem javaTrimList_eq (l : List Char) :
    javaTrimList l = (l.dropWhile isJavaTrimmable).rdropWhile isJavaTrimmable := rfl

theorem mem_of_mem_javaTrimList {x : Char} {l : List Char}
    (h : x ∈ javaTrimList l) : x ∈ l := by
  rw [javaTrimList_eq] at h
  exact (List.dropWhile_suffix isJavaTrimmable).sublist.mem
    ((List.rdropWhile_prefix isJavaTrimmable _).sublist.mem h)

theorem dropWhile_eq_cons_head_false {p : Char → Bool} {l : List Char} {c : Char}
    {t : List Char} (h : l.dropWhile p = c :: t) : p c = false := by
  induction l with
  | nil => simp [List.dropWhile] at h
  | cons x xs ih =>
    rw [List.dropWhile_cons] at h
    by_cases hx : p x = true
    · rw [if_pos hx] at h; exact ih h
    · rw [if_neg hx] at h
      cases h
      simpa using hx

theorem dropWhile_javaTrimList (l : List Char) :
    (javaTrimList l).dropWhile isJavaTrimmable = javaTrimList l := by
  rw [javaTrimList_eq]
  rcases hA : (l.dropWhile isJavaTrimmable).rdropWhile isJavaTrimmable with _ | ⟨c, t⟩
  · rfl
  · have hpre := List.rdropWhile_prefix isJavaTrimmable (l.dropWhile isJavaTrimmable)
    rw [hA] at hpre
    rcases hpre with ⟨r, hr⟩
    have hc : isJavaTrimmable c = false :=
      dropWhile_eq_cons_head_false (l := l) (c := c) (t := t ++ r) (by rw [← hr]; simp)
    simp [List.dropWhile_cons, hc]

theorem javaTrimList_idem (l : List Char) :
    javaTrimList (javaTrimList l) = javaTrimList l := by
  rw [javaTrimList_eq (javaTrimList l), dropWhile_javaTrimList, javaTrimList_eq l,
    List.rdropWhile_idempotent]

theorem filter_javaTrimList_filter (p : Char → Bool) (l : List Char) :
    (javaTrimList (l.filter p)).filter p = javaTrimList (l.filter p) := by
  apply List.filter_eq_self.mpr
  intro a ha
  exact List.of_mem_filter (mem_of_mem_javaTrimList ha)

theorem length_rtake_le {α : Type} (l : List α) (n : Nat) : (l.rtake n).length ≤ n := by
  simp only [List.rtake, List.length_drop]
  omega

theorem rtake_of_length_le {α : Type} {l : List α} {n : Nat} (h : l.length ≤ n) :
    l.rtake n = l := by
  simp [List.rtake, Nat.sub_eq_zero_of_le h]

theorem rtake_append_rtake {α : Type} (a b : List α) (n : Nat) :
    ((a.rtake n) ++ b).rtake n = (a ++ b).rtake n := by
  have hrev : (a.rtake n).reverse = a.reverse.take n := by
    rw [List.rtake_eq_reverse_take_reverse, List.reverse_reverse]
  rw [List.rtake_eq_reverse_take_reverse ((a.rtake n) ++ b) n,
    List.rtake_eq_reverse_take_reverse (a ++ b) n]
  congr 1
  rw [List.reverse_append, List.reverse_append, hrev,
    List.take_append_eq_append_take, List.take_append_eq_append_take,
    List.take_take, List.length_reverse,
    inf_eq_left.mpr (Nat.sub_le n b.length)]

theorem addTurn_turns_rtake (ctx : ConversationContext) (u i a : String) (now : Nat)
    (h : ctx.turns.length ≤ 5) :
    (ctx.addTurn u i a now).turns =
      (ctx.turns ++ [ConversationTurn.mk u i a now]).rtake 5 := by
  simp only [ConversationContext.addTurn]
  by_cases h5 : ctx.turns.length = 5
  · have hlen : (ctx.turns ++ [ConversationTurn.mk u i a now]).length = 6 := by
      simp [h5]
    rw [if_pos (by rw [hlen]; omega), List.rtake, hlen]
  · have hlt : ctx.turns.length < 5 := Nat.lt_of_le_of_ne h h5
    have hlen : (ctx.turns ++ [ConversationTurn.mk u i a now]).length ≤ 5 := by
      simp; omega
    rw [if_neg (by simp; omega), rtake_of_length_le hlen]

theorem foldl_addTurn_turns (events : List ConversationTurn) :
    ∀ (ctx : ConversationContext), ctx.turns.length ≤ 5 →
      (events.foldl (fun c t => c.addTurn t.userText t.intent t.action t.timestamp)
        ctx).turns = (ctx.turns ++ events).rtake 5 := by
  induction events with
  | nil =>
    intro ctx h
    simpa using (rtake_of_length_le h).symm
  | cons t rest ih =>
    intro ctx h
    have hstep := addTurn_turns_rtake ctx t.userText t.intent t.action t.timestamp h
    have hlen : ((ctx.addTurn t.userText t.intent t.action t.timestamp).turns).length ≤ 5 := by
      rw [hstep]; exact length_rtake_le _ _
    rw [List.foldl_cons, ih _ hlen, hstep, rtake_append_rtake]
    simp

theorem sanitizeText_no_trunc {s : String}
    (h : (javaTrimList (s.data.filter (fun c => !(isStrippedCntrl c)))).length ≤
      MAX_TEXT_LENGTH) :
    sanitizeText s = ⟨javaTrimList (s.data.filter (fun c => !(isStrippedCntrl c)))⟩ := by
  simp only [sanitizeText]
  exact congrArg String.mk (List.take_of_length_le h)

/- ### C4 -/

/-- C4 (confirmed): starting from a freshly created context, any sequence of
`addTurn` calls leaves at most 5 turns, and exactly the most recent 5 in
order — the oldest turn is evicted first. -/
theorem C4_addTurn_fifo_bound : ∀ (sid : String) (t0 : Nat)
    (events : List ConversationTurn),
    ((events.foldl (fun c t => c.addTurn t.userText t.intent t.action t.timestamp)
      (freshContext sid t0)).turns).length ≤ 5 ∧
    (events.foldl (fun c t => c.addTurn t.userText t.intent t.action t.timestamp)
      (freshContext sid t0)).turns = events.rtake 5 := by
  intro sid t0 events
  have h := foldl_addTurn_turns events (freshContext sid t0) (by simp [freshContext])
  have hfresh : (freshContext sid t0).turns = [] := rfl
  rw [hfresh, List.nil_append] at h
  exact ⟨by rw [h]; exact length_rtake_le _ _, h⟩

/- ### C5 -/

/-- C5 (confirmed): when every stored entry for a session id has
`lastAccessedAt` more than 30 minutes before `now`, `getContext` does not
return it: the expiry sweep removes it and a fresh context (empty turn
list, creation and last-access timestamps equal to `now`) is created and
returned. -/
theorem C5_expired_session_recreated : ∀ (m : ContextMap) (now : Nat) (sid : String),
    (∀ e ∈ m, e.1 = sid → now - e.2.lastAccessedAt > CONTEXT_TIMEOUT) →
    (getContext m now sid).1 = ⟨sid, [], now, now⟩ := by
  intro m now sid h
  have hfind : (cleanupExpiredContexts now m).find? (fun e => e.1 == sid) = none := by
    rw [List.find?_eq_none]
    intro x hx
    rcases List.mem_filter.mp hx with ⟨hxm, hxp⟩
    intro hbeq
    have hxe : x.1 = sid := by simpa using hbeq
    have hex := h x hxm hxe
    simp only [isExpired, Bool.not_eq_true', decide_eq_false_iff_not, not_lt] at hxp
    omega
  simp [getContext, hfind, freshContext]

/-- Witness for C5 at a concrete store and clock. -/
theorem C5_witness :
    (∀ e ∈ ([("s1", ⟨"s1", [⟨"hi", "navigate", "NAVIGATE", 0⟩], 0, 0⟩)] : ContextMap),
      e.1 = "s1" → 1800001 - e.2.lastAccessedAt > CONTEXT_TIMEOUT) ∧
    (getContext [("s1", ⟨"s1", [⟨"hi", "navigate", "NAVIGATE", 0⟩], 0, 0⟩)]
      1800001 "s1").1 = ⟨"s1", [], 1800001, 1800001⟩ :=
  ⟨by decide, C5_expired_session_recreated _ _ _ (by decide)⟩

/- ### C6 -/

/-- C6 (corrected): `sanitizeText` strips control characters (preserving
newline, carriage return and tab), trims, and truncates to at most 1000
characters; its output length is always ≤ 1000, and it is idempotent
whenever the stripped-and-trimmed text fits in 1000 characters, i.e.
whenever no truncation occurs.  Unrestricted idempotence fails
(`C6_counterexample`): the source trims before truncating, so truncation
can cut right after whitespace that a second pass then trims away. -/
theorem C6_sanitize_amended : ∀ s : String,
    (sanitizeText s).length ≤ MAX_TEXT_LENGTH ∧
    ((javaTrimList (s.data.filter (fun c => !(isStrippedCntrl c)))).length ≤
        MAX_TEXT_LENGTH →
      sanitizeText (sanitizeText s) = sanitizeText s) := by
  intro s
  constructor
  · simp only [sanitizeText, String.length, List.length_take]
    omega
  · intro h
    rw [sanitizeText_no_trunc h]
    have hdata : (String.mk (javaTrimList (s.data.filter
        (fun c => !(isStrippedCntrl c))))).data =
        javaTrimList (s.data.filter (fun c => !(isStrippedCntrl c))) := rfl
    simp only [sanitizeText, hdata, filter_javaTrimList_filter, javaTrimList_idem]
    exact congrArg String.mk (List.take_of_length_le h)

/-- The claim's unrestricted idempotence is false on the code: 999 `a`s,
a space and a `b` sanitize to a 1000-character string ending in the space,
which a second sanitize trims to 999 characters. -/
theorem C6_counterexample :
    sanitizeText (sanitizeText ⟨List.replicate 999 'a' ++ [' ', 'b']⟩) ≠
      sanitizeText ⟨List.replicate 999 'a' ++ [' ', 'b']⟩ := by decide

/-- Witness for C6 at a concrete string short enough not to truncate. -/
theorem C6_witness :
    (sanitizeText "open the settings page").length ≤ MAX_TEXT_LENGTH ∧
    sanitizeText (sanitizeText "open the settings page") =
      sanitizeText "open the settings page" :=
  ⟨(C6_sanitize_amended "open the settings page").1,
   (C6_sanitize_amended "open the settings page").2 (by decide)⟩

/- ### C1 -/

/-- C1 (corrected): when the completion call fails at transport level or
times out, `interpret` never propagates the failure — every path resolves
to a `ToolCall` value — but the fallback it returns is
`{tool:"error", params:{message:"LLM unavailable"}}`, not
`{tool:"unknown", params:{}}`: `OllamaClient.generate` substitutes the
fixed `error` JSON, `parseToolCall` parses it, and the validator passes
the out-of-registry name `"error"` through. -/
theorem C1_interpret_transport_failure : ∀ (m : ContextMap) (now : Nat)
    (text : String) (sessionId : Option String),
    javaTrim text ≠ "" → sanitizeText text ≠ "" →
    interpret .failure m now text sessionId =
      ⟨"error", [("message", "LLM unavailable")]⟩ := by
  intro m now text sessionId h1 h2
  simp [interpret, generate, h1, h2]
  decide

/-- The claim's stated fallback value is refuted at a concrete input: a
failed call yields the `error` tool call, not the `unknown` one. -/
theorem C1_counterexample :
    interpret .failure [] 0 "open settings" (some "s1") =
      ⟨"error", [("message", "LLM unavailable")]⟩ ∧
    interpret .failure [] 0 "open settings" (some "s1") ≠ unknownToolCall :=
  ⟨by decide, by decide⟩

/-- Witness for C1 at a concrete text and session. -/
theorem C1_witness :
    javaTrim "turn on the lights" ≠ "" ∧ sanitizeText "turn on the lights" ≠ "" ∧
    interpret .failure [] 7 "turn on the lights" (some "sess") =
      ⟨"error", [("message", "LLM unavailable")]⟩ :=
  ⟨by decide, by decide,
   C1_interpret_transport_failure [] 7 "turn on the lights" (some "sess")
     (by decide) (by decide)⟩

/- ### C7 -/

/-- C7 (corrected): a `ToolCall` whose tool is `"unknown"` executes to the
diagnostic `UNKNOWN` result (echoing the original text from the `text`
param when present), but a tool name outside the dispatch table does NOT:
it takes the `default` arm and yields
`{action:"ERROR", success:false, error:"Unknown tool: <name>"}`. -/
theorem C7_execute_amended :
    (∀ (params : List (String × String)) (now : Nat),
      execute ⟨"unknown", params⟩ now =
        ⟨"UNKNOWN", none, none, none, none,
          some (match lookupKey params "text" with
                | some t => [("original_text", t)]
                | none => []),
          false, some "Could not interpret the command"⟩) ∧
    (∀ (toolCall : ToolCall) (now : Nat),
      toLowerStr toolCall.tool ∉
        ["navigate", "save_form", "trigger_email", "submit_form", "unknown"] →
      execute toolCall now = createErrorAction ("Unknown tool: " ++ toolCall.tool)) := by
  constructor
  · intro params now
    rfl
  · intro toolCall now h
    simp only [List.mem_cons, List.mem_singleton, not_or, List.not_mem_nil] at h
    obtain ⟨h1, h2, h3, h4, h5, -⟩ := h
    simp [execute, h1, h2, h3, h4, h5]

/-- The claim treats out-of-table names like `"unknown"`; the code yields
an `ERROR` action instead of the claimed `UNKNOWN` one. -/
theorem C7_counterexample :
    execute ⟨"frobnicate", []⟩ 0 = createErrorAction "Unknown tool: frobnicate" ∧
    (execute ⟨"frobnicate", []⟩ 0).action ≠ "UNKNOWN" :=
  ⟨by decide, by decide⟩

/-- Witness for C7 at concrete tool calls. -/
theorem C7_witness :
    execute ⟨"unknown", [("text", "gibberish input")]⟩ 3 =
      ⟨"UNKNOWN", none, none, none, none,
        some [("original_text", "gibberish input")], false,
        some "Could not interpret the command"⟩ ∧
    execute ⟨"frobnicate", [("x", "y")]⟩ 3 =
      createErrorAction "Unknown tool: frobnicate" :=
  ⟨C7_execute_amended.1 [("text", "gibberish input")] 3,
   C7_execute_amended.2 ⟨"frobnicate", [("x", "y")]⟩ 3 (by decide)⟩

/- ### C8 -/

/-- C8 (confirmed): `parseToolCall` first cleans the completion response
(trim, strip a leading ```` ```json ````/```` ``` ```` fence and a
trailing ```` ``` ```` fence, trim) and hands exactly the cleaned string
to the deserializer; every deserialization failure, and every
deserialized object whose `tool` member is missing or empty, collapses to
`{tool:"unknown", params:{}}`; any other deserialized call passes through
with its params (absent params read as the empty map). -/
theorem C8_parse_contract : ∀ (readValue : String → Option RawToolCall)
    (response : String),
    (readValue (cleanResponse response) = none →
      parseToolCallWith readValue response = unknownToolCall) ∧
    (∀ raw, readValue (cleanResponse response) = some raw →
      (raw.tool = none ∨ raw.tool = some "") →
      parseToolCallWith readValue response = unknownToolCall) ∧
    (∀ raw t, readValue (cleanResponse response) = some raw → raw.tool = some t →
      t ≠ "" → parseToolCallWith readValue response = ⟨t, raw.params.getD []⟩) := by
  intro readValue response
  refine ⟨?_, ?_, ?_⟩
  · intro h
    simp [parseToolCallWith, h]
  · intro raw h htool
    rcases htool with h0 | h0 <;> simp [parseToolCallWith, h, h0]
  · intro raw t h ht hne
    simp [parseToolCallWith, h, ht, hne]

/-- Witness for C8: the concrete deserializer model on a fenced response
and on garbage, driven through `C8_parse_contract`. -/
theorem C8_witness :
    readToolCall (cleanResponse
      "```json\n\x7b\"tool\":\"navigate\",\"params\":\x7b\"page\":\"settings\"\x7d\x7d\n```") =
      some ⟨some "navigate", some [("page", "settings")]⟩ ∧
    parseToolCall
      "```json\n\x7b\"tool\":\"navigate\",\"params\":\x7b\"page\":\"settings\"\x7d\x7d\n```" =
      ⟨"navigate", [("page", "settings")]⟩ ∧
    readToolCall (cleanResponse "I could not parse that") = none ∧
    parseToolCall "I could not parse that" = unknownToolCall := by
  refine ⟨by decide, ?_, by decide, ?_⟩
  · exact (C8_parse_contract readToolCall
      "```json\n\x7b\"tool\":\"navigate\",\"params\":\x7b\"page\":\"settings\"\x7d\x7d\n```").2.2
      ⟨some "navigate", some [("page", "settings")]⟩ "navigate" (by decide) rfl (by decide)
  · exact (C8_parse_contract readToolCall "I could not parse that").1 (by decide)

/- ### C2 -/

theorem pickMin_of_min (l : List FinalCmd) : ∀ (c : FinalCmd),
    (∀ d ∈ l, completion c ≤ completion d) → pickMin c l = (c, l) := by
  induction l with
  | nil => intro c _; rfl
  | cons d rest ih =>
    intro c h
    have hd : completion c ≤ completion d := h d (List.mem_cons_self d rest)
    have hnot : ¬ (completion d < completion c) := not_lt.mpr hd
    simp only [pickMin, if_neg hnot]
    rw [ih c (fun e he => h e (List.mem_cons_of_mem _ he))]

theorem runFlatMapAux_sorted : ∀ (cmds : List FinalCmd) (fuel : Nat),
    cmds.length ≤ fuel →
    cmds.Pairwise (fun a b => completion a ≤ completion b) →
    runFlatMapAux fuel cmds = cmds.map (fun c => c.text) := by
  intro cmds
  induction cmds with
  | nil => intro fuel _ _; cases fuel <;> rfl
  | cons c rest ih =>
    intro fuel hf hp
    cases fuel with
    | zero => simp at hf
    | succ f =>
      obtain ⟨h1, h2⟩ := List.pairwise_cons.mp hp
      have hmin := pickMin_of_min rest c h1
      simp only [runFlatMapAux, hmin]
      rw [ih f (by simpa using hf) h2]
      rfl

theorem turnTexts_foldl (texts : List String) :
    ((texts.foldl (fun ctx t => ctx.addTurn t "tool" "ACTION" 0)
      (freshContext "s" 0)).turns).map (fun t => t.userText) = texts.rtake 5 := by
  have h0 : texts.foldl (fun ctx t => ctx.addTurn t "tool" "ACTION" 0)
      (freshContext "s" 0) =
      (texts.map (fun t => ConversationTurn.mk t "tool" "ACTION" 0)).foldl
        (fun c turn => c.addTurn turn.userText turn.intent turn.action turn.timestamp)
        (freshContext "s" 0) := by
    rw [List.foldl_map]
  rw [h0, foldl_addTurn_turns _ _ (by simp [freshContext])]
  have hfresh : (freshContext "s" 0).turns = [] := rfl
  rw [hfresh, List.nil_append, List.rtake, List.rtake, List.map_drop,
    List.map_map, List.length_map]
  have hid : ((fun t : ConversationTurn => t.userText) ∘
      fun t => ConversationTurn.mk t "tool" "ACTION" 0) = fun t : String => t := rfl
  rw [hid, List.map_id']

/-- C2 (corrected): the gateway chains the inbound stream through Reactor
`flatMap`, which does not serialize a session's final commands: context
updates land in pipeline-completion order.  Submission order is preserved
exactly when completion times are monotone along submission order — then
`runFlatMap` lists the texts in submission order and the Context Store
holds the most recent five of them in that order.  When the first
command's external call outlasts the second's, the turns invert
(`C2_counterexample`). -/
theorem C2_flatmap_ordering_amended : ∀ (cmds : List FinalCmd),
    cmds.Pairwise (fun a b => completion a ≤ completion b) →
    runFlatMap cmds = cmds.map (fun c => c.text) ∧
    turnTextsAfter cmds = (cmds.map (fun c => c.text)).rtake 5 := by
  intro cmds h
  have h1 := runFlatMapAux_sorted cmds cmds.length (le_refl _) h
  refine ⟨h1, ?_⟩
  unfold turnTextsAfter
  rw [show runFlatMap cmds = cmds.map (fun c => c.text) from h1]
  exact turnTexts_foldl _

/-- The claim's unconditional submission-order guarantee is refuted: with
the first command's completion call slower (latency 10 versus 1), the
second command's turn reaches the Context Store first. -/
theorem C2_counterexample :
    turnTextsAfter [⟨"first", 0, 10⟩, ⟨"second", 1, 1⟩] = ["second", "first"] ∧
    turnTextsAfter [⟨"first", 0, 10⟩, ⟨"second", 1, 1⟩] ≠
      ([⟨"first", 0, 10⟩, ⟨"second", 1, 1⟩] : List FinalCmd).map (fun c => c.text) :=
  ⟨by decide, by decide⟩

/-- Witness for C2 at a concrete pair of non-overlapping commands. -/
theorem C2_witness :
    runFlatMap [⟨"open settings", 0, 3⟩, ⟨"submit the form", 10, 2⟩] =
      ([⟨"open settings", 0, 3⟩, ⟨"submit the form", 10, 2⟩] : List FinalCmd).map
        (fun c => c.text) ∧
    turnTextsAfter [⟨"open settings", 0, 3⟩, ⟨"submit the form", 10, 2⟩] =
      (([⟨"open settings", 0, 3⟩, ⟨"submit the form", 10, 2⟩] : List FinalCmd).map
        (fun c => c.text)).rtake 5 :=
  C2_flatmap_ordering_amended _ (by decide)

/- ### C3 -/

theorem handleSTT_final_actionResult (g : GenOutcome) (m : ContextMap) (now : Nat)
    (sessionId timestamp : String) (request : IntentRequest) (text : String)
    (htext : request.text = some text) (hne : javaTrim text ≠ "")
    (hpart : request.isPartial ≠ some true) :
    handleSTT g m now sessionId timestamp request =
      .actionResult (createActionResultResponse
        (interpret g m now text (some sessionId))
        (execute (interpret g m now text (some sessionId)) now) 0 0 timestamp) := by
  simp [handleSTT, htext, hne, hpart]

/-- C3 (corrected): the Java gateway does emit exactly one `action_result`
envelope per final command — interpretation, validation and dispatch
failures are absorbed into the `ToolCall`/`ActionResult` values, never
into a protocol error — but the Node gateway does not: it emits an
`action_result` only when the interpreted intent is neither `UNKNOWN` nor
`ERROR`, so a failed interpretation produces zero `action_result`
envelopes there (the interpretation arrives in a separate `intent`
envelope). -/
theorem C3_one_action_result_amended :
    (∀ (g : GenOutcome) (m : ContextMap) (now : Nat) (sessionId timestamp : String)
        (request : IntentRequest) (text : String),
      request.text = some text → javaTrim text ≠ "" → request.isPartial ≠ some true →
      ∃ payload, handleSTT g m now sessionId timestamp request =
        .actionResult payload) ∧
    (∀ (interpretOf : String → NodeBackend.NodeIntent) (text : String),
      javaTrim text ≠ "" →
      NodeBackend.countActionResults (NodeBackend.handleSTT interpretOf text false) =
        if (interpretOf text).intent = "UNKNOWN" ∨ (interpretOf text).intent = "ERROR"
        then 0 else 1) := by
  constructor
  · intro g m now sid ts req text htext hne hpart
    exact ⟨_, handleSTT_final_actionResult g m now sid ts req text htext hne hpart⟩
  · intro interpretOf text hne
    simp only [NodeBackend.handleSTT, Bool.false_eq_true, if_false]
    rw [if_neg (by simpa using hne)]
    by_cases h1 : (interpretOf text).intent = "UNKNOWN"
    · simp [NodeBackend.countActionResults, NodeBackend.NodeEnv.isActionResult, h1]
    · by_cases h2 : (interpretOf text).intent = "ERROR"
      · simp [NodeBackend.countActionResults, NodeBackend.NodeEnv.isActionResult, h1, h2]
      · simp [NodeBackend.countActionResults, NodeBackend.NodeEnv.isActionResult, h1, h2]

/-- The claim's "never zero envelopes" is refuted on the Node gateway: an
`UNKNOWN` interpretation of a final command yields no `action_result`
envelope at all. -/
theorem C3_counterexample :
    NodeBackend.countActionResults
      (NodeBackend.handleSTT (fun _ => ⟨"UNKNOWN"⟩) "sand and they may" false) = 0 ∧
    NodeBackend.countActionResults
      (NodeBackend.handleSTT (fun _ => ⟨"UNKNOWN"⟩) "sand and they may" false) ≠ 1 :=
  ⟨by decide, by decide⟩

/-- Witness for C3 at concrete commands on both gateways. -/
theorem C3_witness :
    (∃ payload, handleSTT (.ok "x") [] 0 "sess" "T"
      ⟨some "stt", some "open settings", some false⟩ = .actionResult payload) ∧
    NodeBackend.countActionResults
      (NodeBackend.handleSTT (fun _ => ⟨"NAVIGATE"⟩) "open settings" false) =
      if (("NAVIGATE" : String) = "UNKNOWN" ∨ ("NAVIGATE" : String) = "ERROR")
      then 0 else 1 :=
  ⟨C3_one_action_result_amended.1 (.ok "x") [] 0 "sess" "T"
      ⟨some "stt", some "open settings", some false⟩ "open settings" rfl
      (by decide) (by decide),
   C3_one_action_result_amended.2 (fun _ => ⟨"NAVIGATE"⟩) "open settings" (by decide)⟩

/- ### C9 -/

/-- C9 (code_bug): the claim (and the envelope the source itself assembles
and logs as `responseData`) calls for a canonical `intent`/`result` shape
derived from the tool call and the action result, but the shipped
`createActionResultResponse` returns the `TODO` debug mock instead: for
the unintelligible-input tool call, the emitted envelope carries
`result.success = true` and a fixed test message even though the action
result failed, and its `intent` object has no tool name at all, while the
canonical `responseDataOf` envelope carries `UNKNOWN`. -/
theorem C9_mock_envelope_bug :
    (((createActionResultResponse ⟨"unknown", [("text", "sand and they may may i")]⟩
        (executeUnknown ⟨"unknown", [("text", "sand and they may may i")]⟩) 100 483
        "2025-11-22T23:39:01Z").lookup "result").bind
      (fun r => (r.lookup "message").bind JVal.asStr)) = some "This is a TEST message" ∧
    (((createActionResultResponse ⟨"unknown", [("text", "sand and they may may i")]⟩
        (executeUnknown ⟨"unknown", [("text", "sand and they may may i")]⟩) 100 483
        "2025-11-22T23:39:01Z").lookup "result").bind
      (fun r => (r.lookup "success").bind JVal.asBool)) = some true ∧
    (executeUnknown ⟨"unknown", [("text", "sand and they may may i")]⟩).success = false ∧
    (((createActionResultResponse ⟨"unknown", [("text", "sand and they may may i")]⟩
        (executeUnknown ⟨"unknown", [("text", "sand and they may may i")]⟩) 100 483
        "2025-11-22T23:39:01Z").lookup "intent").bind
      (fun i => i.lookup "intent")) = none ∧
    (((responseDataOf ⟨"unknown", [("text", "sand and they may may i")]⟩
        (executeUnknown ⟨"unknown", [("text", "sand and they may may i")]⟩) 483
        "2025-11-22T23:39:01Z").lookup "intent").bind
      (fun i => (i.lookup "intent").bind JVal.asStr)) = some "UNKNOWN" ∧
    (((responseDataOf ⟨"unknown", [("text", "sand and they may may i")]⟩
        (executeUnknown ⟨"unknown", [("text", "sand and they may may i")]⟩) 483
        "2025-11-22T23:39:01Z").lookup "result").bind
      (fun r => (r.lookup "action").bind JVal.asStr)) = some "UNKNOWN" :=
  ⟨rfl, rfl, rfl, rfl, rfl, rfl⟩

/- ### C10 -/

/-- C10 (confirmed): a message that parses but carries no `type` member is
not rejected as an unknown kind: `handleMessage` dispatches it through the
`"stt"` arm, identically to an explicit `stt` message, and with non-empty
non-partial text it produces an `action_result` envelope from the full
interpret-and-dispatch pipeline. -/
theorem C10_typeless_as_stt : ∀ (g : GenOutcome) (m : ContextMap) (now : Nat)
    (sessionId timestamp : String) (request : IntentRequest),
    request.type = none →
    (handleMessage g m now sessionId timestamp (some request) =
      handleSTT g m now sessionId timestamp request) ∧
    (∀ text, request.text = some text → javaTrim text ≠ "" →
      request.isPartial ≠ some true →
      ∃ payload, handleMessage g m now sessionId timestamp (some request) =
        .actionResult payload) := by
  intro g m now sid ts req htype
  have h1 : handleMessage g m now sid ts (some req) = handleSTT g m now sid ts req := by
    simp [handleMessage, htype]
  refine ⟨h1, fun text htext hne hpart => ?_⟩
  exact ⟨_, h1.trans
    (handleSTT_final_actionResult g m now sid ts req text htext hne hpart)⟩

/-- Witness for C10: a typeless final command on a concrete session. -/
theorem C10_witness :
    (handleMessage (.ok "irrelevant") [] 0 "sess" "T"
      (some ⟨none, some "submit the form", some false⟩) =
      handleSTT (.ok "irrelevant") [] 0 "sess" "T"
        ⟨none, some "submit the form", some false⟩) ∧
    (∃ payload, handleMessage (.ok "irrelevant") [] 0 "sess" "T"
      (some ⟨none, some "submit the form", some false⟩) = .actionResult payload) :=
  ⟨(C10_typeless_as_stt (.ok "irrelevant") [] 0 "sess" "T"
      ⟨none, some "submit the form", some false⟩ rfl).1,
   (C10_typeless_as_stt (.ok "irrelevant") [] 0 "sess" "T"
      ⟨none, some "submit the form", some false⟩ rfl).2 "submit the form" rfl
      (by decide) (by decide)⟩

end VoiceApp

